import Mathlib

/-!
Shallow embedding of `dradtke/allegro_window` (src/src/lib.rs), a backend
adapter exposing an Allegro display and event queue through the generic
Piston windowing interface.  The native handles (display, core, queue) carry
no logic that the claims depend on; the mutable window state and the event
queue contents are modelled explicitly.  Machine integers are modelled as
`Int`/`Nat` with explicit wrapping where the source casts.
-/

namespace AllegroWindow

/-- Backend key codes, mirroring the `allegro::keycodes::KeyCode` enum of the
native backend (the full set of codes the backend defines). -/
inductive KeyCode where
  | A | B | C | D | E | F | G | H | I | J | K | L | M
  | N | O | P | Q | R | S | T | U | V | W | X | Y | Z
  | _0 | _1 | _2 | _3 | _4 | _5 | _6 | _7 | _8 | _9
  | Pad0 | Pad1 | Pad2 | Pad3 | Pad4 | Pad5 | Pad6 | Pad7 | Pad8 | Pad9
  | F1 | F2 | F3 | F4 | F5 | F6 | F7 | F8 | F9 | F10 | F11 | F12
  | Escape | Tilde | Minus | Equals | Backspace | Tab
  | Openbrace | Closebrace | Enter | Semicolon | Quote
  | Backslash | Backslash2 | Comma | Fullstop | Slash | Space
  | Insert | Delete | Home | End | PgUp | PgDn
  | Left | Right | Up | Down
  | PadSlash | PadAsterisk | PadMinus | PadPlus | PadDelete | PadEnter
  | PrintScreen | Pause
  | AbntC1 | Yen | Kana | Convert | NoConvert | At | Circumflex
  | Colon2 | Kanji | PadEquals | Backquote | Semicolon2 | Command
  | Back | VolumeUp | VolumeDown
  | Search | DPadCenter | ButtonX | ButtonY
  | DPadUp | DPadDown | DPadLeft | DPadRight
  | Select | Start
  | ButtonL1 | ButtonR1 | ButtonL2 | ButtonR2 | ButtonA | ButtonB
  | ThumbL | ThumbR
  | Unknown
  | LShift | RShift | LCtrl | RCtrl | Alt | AltGr | LWin | RWin
  | Menu | ScrollLock | NumLock | CapsLock
deriving DecidableEq

/-- Generic keyboard keys, mirroring the constructors of the Piston
`input::keyboard::Key` vocabulary that the adapter produces. -/
inductive Key where
  | A | B | C | D | E | F | G | H | I | J | K | L | M
  | N | O | P | Q | R | S | T | U | V | W | X | Y | Z
  | D0 | D1 | D2 | D3 | D4 | D5 | D6 | D7 | D8 | D9
  | NumPad0 | NumPad1 | NumPad2 | NumPad3 | NumPad4
  | NumPad5 | NumPad6 | NumPad7 | NumPad8 | NumPad9
  | F1 | F2 | F3 | F4 | F5 | F6 | F7 | F8 | F9 | F10 | F11 | F12
  | Escape | Minus | Equals | Backspace | Tab
  | LeftBracket | RightBracket | Return | Semicolon | Quote
  | Backslash | Comma | Slash | Space
  | Insert | Delete | Home | End | PageUp | PageDown
  | Left | Right | Up | Down
  | NumPadMinus | NumPadPlus | NumPadEnter
  | PrintScreen | Pause | At | NumPadColon | NumPadEquals | Backquote
  | Unknown
  | LShift | RShift | LCtrl | RCtrl | LAlt | RAlt | LGui | RGui
  | Menu | ScrollLock | NumLockClear | CapsLock
deriving DecidableEq

/-- Generic mouse buttons produced by the adapter
(`input::mouse::MouseButton`). -/
inductive MouseButton where
  | Left
  | Right
  | Middle
deriving DecidableEq

/-- Button press state (`input::ButtonState`). -/
inductive ButtonState where
  | Press
  | Release
deriving DecidableEq

/-- Generic button (`input::Button`): keyboard key or mouse button. -/
inductive Button where
  | Keyboard (key : Key)
  | Mouse (button : MouseButton)
deriving DecidableEq

/-- Arguments of a generic button event (`input::ButtonArgs`). -/
structure ButtonArgs where
  state : ButtonState
  button : Button
  scancode : Option Int
deriving DecidableEq

/-- Generic pointer motion (`input::Motion`); the source casts the backend
`i32` coordinates to `f64`, a lossless embedding, so they stay `Int` here. -/
inductive Motion where
  | MouseCursor (x y : Int)
  | MouseRelative (dx dy : Int)
deriving DecidableEq

/-- Generic input event (`input::Input`), restricted to the variants this
adapter produces. -/
inductive Input where
  | Button (args : ButtonArgs)
  | Move (motion : Motion)
  | Text (text : String)
  | Resize (width height : Nat)
  | Cursor (entered : Bool)
  | Close
deriving DecidableEq

/-- `translate_keycode` from src/src/lib.rs lines 252-363: the flat lookup
table from backend key codes to generic keys.  The source's catch-all arm
panics; a panic is embedded as `none`. -/
def translate_keycode (keycode : KeyCode) : Option Key :=
  match keycode with
  | KeyCode.A => some Key.A
  | KeyCode.B => some Key.B
  | KeyCode.C => some Key.C
  | KeyCode.D => some Key.D
  | KeyCode.E => some Key.E
  | KeyCode.F => some Key.F
  | KeyCode.G => some Key.G
  | KeyCode.H => some Key.H
  | KeyCode.I => some Key.I
  | KeyCode.J => some Key.J
  | KeyCode.K => some Key.K
  | KeyCode.L => some Key.L
  | KeyCode.M => some Key.M
  | KeyCode.N => some Key.N
  | KeyCode.O => some Key.O
  | KeyCode.P => some Key.P
  | KeyCode.Q => some Key.Q
  | KeyCode.R => some Key.R
  | KeyCode.S => some Key.S
  | KeyCode.T => some Key.T
  | KeyCode.U => some Key.U
  | KeyCode.V => some Key.V
  | KeyCode.W => some Key.W
  | KeyCode.X => some Key.X
  | KeyCode.Y => some Key.Y
  | KeyCode.Z => some Key.Z
  | KeyCode._0 => some Key.D0
  | KeyCode._1 => some Key.D1
  | KeyCode._2 => some Key.D2
  | KeyCode._3 => some Key.D3
  | KeyCode._4 => some Key.D4
  | KeyCode._5 => some Key.D5
  | KeyCode._6 => some Key.D6
  | KeyCode._7 => some Key.D7
  | KeyCode._8 => some Key.D8
  | KeyCode._9 => some Key.D9
  | KeyCode.Pad0 => some Key.NumPad0
  | KeyCode.Pad1 => some Key.NumPad1
  | KeyCode.Pad2 => some Key.NumPad2
  | KeyCode.Pad3 => some Key.NumPad3
  | KeyCode.Pad4 => some Key.NumPad4
  | KeyCode.Pad5 => some Key.NumPad5
  | KeyCode.Pad6 => some Key.NumPad6
  | KeyCode.Pad7 => some Key.NumPad7
  | KeyCode.Pad8 => some Key.NumPad8
  | KeyCode.Pad9 => some Key.NumPad9
  | KeyCode.F1 => some Key.F1
  | KeyCode.F2 => some Key.F2
  | KeyCode.F3 => some Key.F3
  | KeyCode.F4 => some Key.F4
  | KeyCode.F5 => some Key.F5
  | KeyCode.F6 => some Key.F6
  | KeyCode.F7 => some Key.F7
  | KeyCode.F8 => some Key.F8
  | KeyCode.F9 => some Key.F9
  | KeyCode.F10 => some Key.F10
  | KeyCode.F11 => some Key.F11
  | KeyCode.F12 => some Key.F12
  | KeyCode.Escape => some Key.Escape
  | KeyCode.Minus => some Key.Minus
  | KeyCode.Equals => some Key.Equals
  | KeyCode.Backspace => some Key.Backspace
  | KeyCode.Tab => some Key.Tab
  | KeyCode.Openbrace => some Key.LeftBracket
  | KeyCode.Closebrace => some Key.RightBracket
  | KeyCode.Enter => some Key.Return
  | KeyCode.Semicolon => some Key.Semicolon
  | KeyCode.Quote => some Key.Quote
  | KeyCode.Backslash => some Key.Backslash
  | KeyCode.Backslash2 => some Key.Backslash
  | KeyCode.Comma => some Key.Comma
  | KeyCode.Slash => some Key.Slash
  | KeyCode.Space => some Key.Space
  | KeyCode.Insert => some Key.Insert
  | KeyCode.Delete => some Key.Delete
  | KeyCode.Home => some Key.Home
  | KeyCode.End => some Key.End
  | KeyCode.PgUp => some Key.PageUp
  | KeyCode.PgDn => some Key.PageDown
  | KeyCode.Left => some Key.Left
  | KeyCode.Right => some Key.Right
  | KeyCode.Up => some Key.Up
  | KeyCode.Down => some Key.Down
  | KeyCode.PadMinus => some Key.NumPadMinus
  | KeyCode.PadPlus => some Key.NumPadPlus
  | KeyCode.PadEnter => some Key.NumPadEnter
  | KeyCode.PrintScreen => some Key.PrintScreen
  | KeyCode.Pause => some Key.Pause
  | KeyCode.At => some Key.At
  | KeyCode.Colon2 => some Key.NumPadColon
  | KeyCode.PadEquals => some Key.NumPadEquals
  | KeyCode.Backquote => some Key.Backquote
  | KeyCode.Semicolon2 => some Key.Semicolon
  | KeyCode.Unknown => some Key.Unknown
  | KeyCode.LShift => some Key.LShift
  | KeyCode.RShift => some Key.RShift
  | KeyCode.LCtrl => some Key.LCtrl
  | KeyCode.RCtrl => some Key.RCtrl
  | KeyCode.Alt => some Key.LAlt
  | KeyCode.AltGr => some Key.RAlt
  | KeyCode.LWin => some Key.LGui
  | KeyCode.RWin => some Key.RGui
  | KeyCode.Menu => some Key.Menu
  | KeyCode.ScrollLock => some Key.ScrollLock
  | KeyCode.NumLock => some Key.NumLockClear
  | KeyCode.CapsLock => some Key.CapsLock
  | _ => none

/-- The fixed deny-list: exactly the backend key codes caught by the source's
catch-all panic arm (`k => panic!("unknown key: ...")`). -/
def deny_list : List KeyCode :=
  [KeyCode.Tilde, KeyCode.Fullstop, KeyCode.PadSlash, KeyCode.PadAsterisk,
   KeyCode.PadDelete, KeyCode.AbntC1, KeyCode.Yen, KeyCode.Kana,
   KeyCode.Convert, KeyCode.NoConvert, KeyCode.Circumflex, KeyCode.Kanji,
   KeyCode.Command, KeyCode.Back, KeyCode.VolumeUp, KeyCode.VolumeDown,
   KeyCode.Search, KeyCode.DPadCenter, KeyCode.ButtonX, KeyCode.ButtonY,
   KeyCode.DPadUp, KeyCode.DPadDown, KeyCode.DPadLeft, KeyCode.DPadRight,
   KeyCode.Select, KeyCode.Start, KeyCode.ButtonL1, KeyCode.ButtonR1,
   KeyCode.ButtonL2, KeyCode.ButtonR2, KeyCode.ButtonA, KeyCode.ButtonB,
   KeyCode.ThumbL, KeyCode.ThumbR]

/-- `translate_mouse_button` from src/src/lib.rs lines 239-250: inspects
bits 0, 1, 2 of the backend `u32` mask in that order; the source's final
else-arm panics, embedded as `none`. -/
def translate_mouse_button (button : Nat) : Option MouseButton :=
  if button &&& 1 ≠ 0 then some MouseButton.Left
  else if button &&& 2 ≠ 0 then some MouseButton.Right
  else if button &&& 4 ≠ 0 then some MouseButton.Middle
  else none

/-- Backend raw events (`allegro::Event`), the closed variant set the native
queue can yield.  `NoEvent` is the "nothing pending" sentinel.  Numeric
payloads are the backend's `i32`/`u32` values. -/
inductive RawEvent where
  | NoEvent
  | DisplayClose
  | DisplayResize (width height : Int)
  | JoystickAxes
  | JoystickButtonDown
  | JoystickButtonUp
  | JoystickConfiguration
  | KeyDown (keycode : KeyCode)
  | KeyUp (keycode : KeyCode)
  | KeyChar (unichar : Char)
  | MouseAxes (dx dy : Int)
  | MouseButtonDown (button : Nat)
  | MouseButtonUp (button : Nat)
  | MouseWarped (x y : Int)
  | MouseEnterDisplay
  | MouseLeaveDisplay
  | TimerTick
deriving DecidableEq

/-- `translate_event` from src/src/lib.rs lines 203-237.  Each panic arm
(NoEvent, joystick events, timer tick — and, propagated from the helpers,
deny-listed key codes and unrecognized mouse masks) is embedded as `none`.
The source casts the `i32` resize dimensions with `as u32`, which wraps
modulo 2^32. -/
def translate_event (event : RawEvent) : Option Input :=
  match event with
  | RawEvent.NoEvent => none
  | RawEvent.DisplayClose => some Input.Close
  | RawEvent.DisplayResize width height =>
      some (Input.Resize ((width % (2 : Int) ^ 32).toNat)
        ((height % (2 : Int) ^ 32).toNat))
  | RawEvent.JoystickAxes => none
  | RawEvent.JoystickButtonDown => none
  | RawEvent.JoystickButtonUp => none
  | RawEvent.JoystickConfiguration => none
  | RawEvent.KeyDown keycode =>
      (translate_keycode keycode).map (fun k =>
        Input.Button ⟨ButtonState.Press, Button.Keyboard k, none⟩)
  | RawEvent.KeyUp keycode =>
      (translate_keycode keycode).map (fun k =>
        Input.Button ⟨ButtonState.Release, Button.Keyboard k, none⟩)
  | RawEvent.KeyChar unichar => some (Input.Text unichar.toString)
  | RawEvent.MouseAxes dx dy =>
      some (Input.Move (Motion.MouseRelative dx dy))
  | RawEvent.MouseButtonDown button =>
      (translate_mouse_button button).map (fun mb =>
        Input.Button ⟨ButtonState.Press, Button.Mouse mb, none⟩)
  | RawEvent.MouseButtonUp button =>
      (translate_mouse_button button).map (fun mb =>
        Input.Button ⟨ButtonState.Release, Button.Mouse mb, none⟩)
  | RawEvent.MouseWarped x y =>
      some (Input.Move (Motion.MouseCursor x y))
  | RawEvent.MouseEnterDisplay => some (Input.Cursor true)
  | RawEvent.MouseLeaveDisplay => some (Input.Cursor false)
  | RawEvent.TimerTick => none

/-- Event-loop settings (`event_loop::EventSettings`), an opaque passthrough
struct the adapter stores but never inspects. -/
structure EventSettings where
  max_fps : Nat
  ups : Nat
  ups_reset : Nat
  swap_buffers : Bool
  bench_mode : Bool
  lazy : Bool
deriving DecidableEq

/-- The mutable window state of `AllegroWindow` (the native display, queue
and core handles carry no state the claims depend on and are left out). -/
structure WindowState where
  exit_on_esc : Bool
  title : String
  event_settings : EventSettings
  should_close : Bool
deriving DecidableEq

/-- `handle_closings` from src/src/lib.rs lines 195-201: the Close Policy.
Matches a keyboard-press of Escape with any scancode. -/
def handle_closings (s : WindowState) (event : Input) : WindowState :=
  if s.exit_on_esc then
    match event with
    | Input.Button ⟨ButtonState.Press, Button.Keyboard Key.Escape, _⟩ =>
        { s with should_close := true }
    | _ => s
  else s

/-- `set_should_close` from src/src/lib.rs lines 56-58. -/
def set_should_close (s : WindowState) (value : Bool) : WindowState :=
  { s with should_close := value }

/-- `set_title` from src/src/lib.rs lines 124-127 (the push of the title to
the native display has no modelled state). -/
def set_title (s : WindowState) (value : String) : WindowState :=
  { s with title := value }

/-- `set_exit_on_esc` from src/src/lib.rs lines 133-135. -/
def set_exit_on_esc (s : WindowState) (value : Bool) : WindowState :=
  { s with exit_on_esc := value }

/-- `set_event_settings` from src/src/lib.rs lines 189-191. -/
def set_event_settings (s : WindowState) (settings : EventSettings) :
    WindowState :=
  { s with event_settings := settings }

/-- `wait_event` from src/src/lib.rs lines 77-90.  The queue is modelled as
the list of raw events the successive native `wait_for_event` calls yield, in
order.  The loop discards leading `NoEvent` markers; an exhausted list means
the native call blocks forever, embedded as `none`, and a translation panic
also propagates as `none`. -/
def wait_event (s : WindowState) : List RawEvent →
    Option (Input × WindowState × List RawEvent)
  | [] => none
  | RawEvent.NoEvent :: rest => wait_event s rest
  | e :: rest =>
      match translate_event e with
      | none => none
      | some event => some (event, handle_closings s event, rest)

/-- `std::time::Duration`: whole seconds plus a nanosecond remainder
(`nanos < 10^9` is the type's invariant, carried as a hypothesis where
needed). -/
structure Duration where
  secs : Nat
  nanos : Nat
deriving DecidableEq

/-- `Duration::as_secs`: the whole-second part, discarding `nanos`. -/
def Duration.as_secs (d : Duration) : Nat := d.secs

/-- The value `wait_event_timeout` passes to the native
`wait_for_event_timed` call, src/src/lib.rs line 93: `timeout.as_secs() as
f64`.  The `u64 → f64` cast is exact on the values concerned, so the passed
number of seconds is carried as a `Nat`. -/
def wait_event_timeout_native_arg (timeout : Duration) : Nat :=
  timeout.as_secs

/-- `wait_event_timeout` from src/src/lib.rs lines 92-101.  The single native
`wait_for_event_timed` call yields one raw event (`NoEvent` when the timeout
expires), passed in as `fetched`.  The outer `Option` is a translation panic;
the inner one is the function's own `Option<Input>` result. -/
def wait_event_timeout (s : WindowState) (fetched : RawEvent) :
    Option (Option Input × WindowState) :=
  match fetched with
  | RawEvent.NoEvent => some (none, s)
  | e =>
      match translate_event e with
      | none => none
      | some event => some (some event, handle_closings s event)

/-- The native `get_next_event` call: pops the head of the pending queue, or
yields the `NoEvent` marker when the queue is empty. -/
def get_next_event : List RawEvent → RawEvent × List RawEvent
  | [] => (RawEvent.NoEvent, [])
  | e :: rest => (e, rest)

/-- `poll_event` from src/src/lib.rs lines 103-112: one non-blocking fetch;
`NoEvent` yields `none`, anything else is translated, run through the Close
Policy and returned.  The outer `Option` is a translation panic. -/
def poll_event (s : WindowState) (queue : List RawEvent) :
    Option (Option Input × WindowState × List RawEvent) :=
  match get_next_event queue with
  | (RawEvent.NoEvent, rest) => some (none, s, rest)
  | (e, rest) =>
      match translate_event e with
      | none => none
      | some event => some (some event, handle_closings s event, rest)

/-- A keyboard-press of Escape, with any scancode: the event shape matched by
the Close Policy. -/
def is_escape_press (event : Input) : Bool :=
  match event with
  | Input.Button ⟨ButtonState.Press, Button.Keyboard Key.Escape, _⟩ => true
  | _ => false

/-- Sample event-loop settings used by concrete witnesses. -/
def sample_settings : EventSettings := ⟨0, 120, 2, true, false, false⟩

/-- Sample window state with `exit_on_esc` on and `should_close` off. -/
def sample_state : WindowState := ⟨true, "T", sample_settings, false⟩

/-- Sample window state whose `should_close` flag is already set. -/
def sample_state_closed : WindowState := ⟨true, "T", sample_settings, true⟩

lemma and_two_pow_ne_zero (m i : Nat) : (m &&& 2 ^ i ≠ 0) ↔ m.testBit i = true := by
  rw [Nat.and_two_pow]
  cases h : m.testBit i
  · simp
  · simpa using (pow_pos (by norm_num : (0 : Nat) < 2) i).ne'

lemma handle_closings_cases (s : WindowState) (event : Input) :
    handle_closings s event = s ∨
      handle_closings s event = { s with should_close := true } := by
  unfold handle_closings
  cases s.exit_on_esc
  · simp
  · simp only [if_true]
    split
    · right; rfl
    · left; rfl

lemma handle_closings_of_escape (s : WindowState) (event : Input)
    (hexit : s.exit_on_esc = true) (hev : is_escape_press event = true) :
    handle_closings s event = { s with should_close := true } := by
  unfold is_escape_press at hev
  unfold handle_closings
  rw [hexit]
  simp only [if_true]
  split
  · rfl
  · rename_i hne
    exfalso
    revert hev
    split
    · rename_i sc; exact absurd rfl (by exact fun h => hne sc h)
    · simp

lemma handle_closings_of_exit_off (s : WindowState) (event : Input)
    (hexit : s.exit_on_esc = false) : handle_closings s event = s := by
  unfold handle_closings
  rw [hexit]
  simp

lemma handle_closings_of_not_escape (s : WindowState) (event : Input)
    (hev : is_escape_press event = false) : handle_closings s event = s := by
  unfold handle_closings
  cases s.exit_on_esc
  · simp
  · simp only [if_true]
    split
    · rename_i sc
      simp [is_escape_press] at hev
    · rfl

/-- C1: every backend key code outside the deny-list translates to a defined
generic key (with the backend's `Unknown` code mapped to the sentinel
`Unknown` key), and every code in the deny-list makes `translate_keycode`
fail fatally. -/
theorem translate_keycode_total_off_deny_list :
    (∀ kc : KeyCode, translate_keycode kc = none ↔ kc ∈ deny_list) ∧
    translate_keycode KeyCode.Unknown = some Key.Unknown := by
  refine ⟨?_, rfl⟩
  intro kc
  cases kc <;> decide

/-- C2: the Close Policy sets `should_close` exactly when `exit_on_esc` is on
and the event is a keyboard-press of Escape (any scancode); in every other
case the state is returned unchanged. -/
theorem handle_closings_close_policy (s : WindowState) (event : Input) :
    handle_closings s event =
      if s.exit_on_esc && is_escape_press event then
        { s with should_close := true }
      else s := by
  by_cases hexit : s.exit_on_esc = true
  · by_cases hev : is_escape_press event = true
    · rw [handle_closings_of_escape s event hexit hev, hexit, hev]
      simp
    · have hev' : is_escape_press event = false := by
        cases h : is_escape_press event
        · rfl
        · exact absurd h hev
      rw [handle_closings_of_not_escape s event hev', hexit, hev']
      simp
  · have hexit' : s.exit_on_esc = false := by
      cases h : s.exit_on_esc
      · rfl
      · exact absurd h hexit
    rw [handle_closings_of_exit_off s event hexit', hexit']
    simp

/-- C6: `translate_mouse_button` inspects bits 0, 1, 2 of the mask in that
priority order (so masks 1, 2, 4 give Left, Right, Middle, mask 3 gives
Left), and fails fatally on any mask with none of those bits set. -/
theorem translate_mouse_button_priority (m : Nat) :
    translate_mouse_button m =
      (if m.testBit 0 then some MouseButton.Left
       else if m.testBit 1 then some MouseButton.Right
       else if m.testBit 2 then some MouseButton.Middle
       else none) ∧
    translate_mouse_button 1 = some MouseButton.Left ∧
    translate_mouse_button 2 = some MouseButton.Right ∧
    translate_mouse_button 4 = some MouseButton.Middle ∧
    translate_mouse_button 3 = some MouseButton.Left ∧
    translate_mouse_button 0 = none := by
  refine ⟨?_, rfl, rfl, rfl, rfl, rfl⟩
  have e0 : (m &&& 1 ≠ 0) ↔ m.testBit 0 = true := by
    simpa using and_two_pow_ne_zero m 0
  have e1 : (m &&& 2 ≠ 0) ↔ m.testBit 1 = true := by
    simpa using and_two_pow_ne_zero m 1
  have e2 : (m &&& 4 ≠ 0) ↔ m.testBit 2 = true := by
    simpa using and_two_pow_ne_zero m 2
  unfold translate_mouse_button
  cases h0 : m.testBit 0 <;> cases h1 : m.testBit 1 <;> cases h2 : m.testBit 2 <;>
    simp only [e0, e1, e2, h0, h1, h2] <;> simp

/-- C8: the timeout passed to the native timed wait is the duration truncated
to whole seconds — the floor of the duration in seconds — so any duration
under one second is passed as 0. -/
theorem wait_event_timeout_truncates_to_seconds (d : Duration)
    (h : d.nanos < 1000000000) :
    wait_event_timeout_native_arg d =
      (d.secs * 1000000000 + d.nanos) / 1000000000 ∧
    (d.secs = 0 → wait_event_timeout_native_arg d = 0) := by
  constructor
  · unfold wait_event_timeout_native_arg Duration.as_secs
    rw [Nat.mul_comm, Nat.mul_add_div (by norm_num), Nat.div_eq_of_lt h,
      Nat.add_zero]
  · intro h0
    unfold wait_event_timeout_native_arg Duration.as_secs
    exact h0

/-- Witness for C8 at a concrete half-second-plus-two-seconds duration. -/
theorem wait_event_timeout_truncates_witness :
    wait_event_timeout_native_arg ⟨2, 500000000⟩ =
      (2 * 1000000000 + 500000000) / 1000000000 :=
  (wait_event_timeout_truncates_to_seconds ⟨2, 500000000⟩ (by norm_num)).1

lemma wait_event_cons (s : WindowState) (e : RawEvent) (rest : List RawEvent)
    (h : e ≠ RawEvent.NoEvent) :
    wait_event s (e :: rest) =
      (translate_event e).map (fun ev => (ev, handle_closings s ev, rest)) := by
  cases e <;>
    first
      | exact absurd rfl h
      | (cases htr : translate_event _ <;> simp [wait_event, htr])

lemma wait_event_noevent_cons (s : WindowState) (rest : List RawEvent) :
    wait_event s (RawEvent.NoEvent :: rest) = wait_event s rest := rfl

lemma wait_event_nil (s : WindowState) : wait_event s [] = none := rfl

lemma wait_event_state_eq (s : WindowState) :
    ∀ (q : List RawEvent) (ev : Input) (s' : WindowState)
      (q' : List RawEvent), wait_event s q = some (ev, s', q') →
      s' = handle_closings s ev := by
  intro q
  induction q with
  | nil =>
      intro ev s' q' hw
      simp [wait_event_nil] at hw
  | cons e rest ih =>
      intro ev s' q' hw
      by_cases he : e = RawEvent.NoEvent
      · subst he
        exact ih ev s' q' (by rw [← wait_event_noevent_cons s rest]; exact hw)
      · rw [wait_event_cons s e rest he] at hw
        cases htr : translate_event e with
        | none => rw [htr] at hw; simp at hw
        | some ev0 =>
            rw [htr] at hw
            simp only [Option.map_some', Option.some.injEq, Prod.mk.injEq] at hw
            obtain ⟨h1, h2, h3⟩ := hw
            rw [← h2, h1]

lemma wait_event_timeout_eq (s : WindowState) (r : RawEvent)
    (h : r ≠ RawEvent.NoEvent) :
    wait_event_timeout s r =
      (translate_event r).map (fun ev => (some ev, handle_closings s ev)) := by
  cases r <;>
    first
      | exact absurd rfl h
      | (cases htr : translate_event _ <;> simp [wait_event_timeout, htr])

lemma wait_event_timeout_state_eq (s : WindowState) (r : RawEvent)
    (oev : Option Input) (s' : WindowState)
    (h : wait_event_timeout s r = some (oev, s')) :
    s' = s ∨ ∃ ev, s' = handle_closings s ev := by
  by_cases hr : r = RawEvent.NoEvent
  · subst hr
    simp only [wait_event_timeout, Option.some.injEq, Prod.mk.injEq] at h
    exact Or.inl h.2.symm
  · rw [wait_event_timeout_eq s r hr] at h
    cases htr : translate_event r with
    | none => rw [htr] at h; simp at h
    | some ev0 =>
        rw [htr] at h
        simp only [Option.map_some', Option.some.injEq, Prod.mk.injEq] at h
        exact Or.inr ⟨ev0, h.2.symm⟩

lemma poll_event_eq (s : WindowState) (e : RawEvent) (rest : List RawEvent)
    (h : e ≠ RawEvent.NoEvent) :
    poll_event s (e :: rest) =
      (translate_event e).map (fun ev => (some ev, handle_closings s ev, rest)) := by
  cases e <;>
    first
      | exact absurd rfl h
      | (cases htr : translate_event _ <;>
          simp [poll_event, get_next_event, htr])

lemma poll_event_state_eq (s : WindowState) (q : List RawEvent)
    (oev : Option Input) (s' : WindowState) (q' : List RawEvent)
    (h : poll_event s q = some (oev, s', q')) :
    s' = s ∨ ∃ ev, s' = handle_closings s ev := by
  cases q with
  | nil =>
      simp only [poll_event, get_next_event, Option.some.injEq,
        Prod.mk.injEq] at h
      exact Or.inl h.2.1.symm
  | cons e rest =>
      by_cases he : e = RawEvent.NoEvent
      · subst he
        simp only [poll_event, get_next_event, Option.some.injEq,
          Prod.mk.injEq] at h
        exact Or.inl h.2.1.symm
      · rw [poll_event_eq s e rest he] at h
        cases htr : translate_event e with
        | none => rw [htr] at h; simp at h
        | some ev0 =>
            rw [htr] at h
            simp only [Option.map_some', Option.some.injEq,
              Prod.mk.injEq] at h
            exact Or.inr ⟨ev0, h.2.1.symm⟩

lemma handle_closings_should_close_mono (s : WindowState) (event : Input)
    (h : s.should_close = true) :
    (handle_closings s event).should_close = true := by
  rcases handle_closings_cases s event with h' | h' <;> rw [h'] <;>
    first
      | exact h
      | rfl

/-- The frame condition of the event-producing operations: every field other
than `should_close` is unchanged, and `should_close` itself either keeps its
value or flips from `false` to `true`. -/
def frame_preserved (s s' : WindowState) : Prop :=
  s'.title = s.title ∧ s'.exit_on_esc = s.exit_on_esc ∧
  s'.event_settings = s.event_settings ∧
  (s'.should_close = s.should_close ∨
    (s.should_close = false ∧ s'.should_close = true))

lemma frame_preserved_refl (s : WindowState) : frame_preserved s s :=
  ⟨rfl, rfl, rfl, Or.inl rfl⟩

lemma frame_preserved_handle (s : WindowState) (event : Input) :
    frame_preserved s (handle_closings s event) := by
  rcases handle_closings_cases s event with h' | h' <;> rw [h']
  · exact frame_preserved_refl s
  · refine ⟨rfl, rfl, rfl, ?_⟩
    cases hsc : s.should_close
    · exact Or.inr ⟨rfl, rfl⟩
    · exact Or.inl rfl

/-- C3: none of the adapter operations other than the external
`set_should_close` setter ever resets `should_close`: if it is `true` before
`wait_event`, `wait_event_timeout`, `poll_event`, or any of the other
setters, it is still `true` after. -/
theorem adapter_never_resets_should_close (s : WindowState)
    (q : List RawEvent) (r : RawEvent) (v : String) (b : Bool)
    (es : EventSettings) (h : s.should_close = true) :
    (∀ ev s' q', wait_event s q = some (ev, s', q') →
      s'.should_close = true) ∧
    (∀ oev s', wait_event_timeout s r = some (oev, s') →
      s'.should_close = true) ∧
    (∀ oev s' q', poll_event s q = some (oev, s', q') →
      s'.should_close = true) ∧
    (set_title s v).should_close = true ∧
    (set_exit_on_esc s b).should_close = true ∧
    (set_event_settings s es).should_close = true := by
  refine ⟨?_, ?_, ?_, h, h, h⟩
  · intro ev s' q' hw
    rw [wait_event_state_eq s q ev s' q' hw]
    exact handle_closings_should_close_mono s ev h
  · intro oev s' hw
    rcases wait_event_timeout_state_eq s r oev s' hw with h' | ⟨ev, h'⟩ <;>
      rw [h']
    · exact h
    · exact handle_closings_should_close_mono s ev h
  · intro oev s' q' hw
    rcases poll_event_state_eq s q oev s' q' hw with h' | ⟨ev, h'⟩ <;>
      rw [h']
    · exact h
    · exact handle_closings_should_close_mono s ev h

/-- Witness for C3 at a concrete already-closing window state. -/
theorem adapter_never_resets_should_close_witness :
    (set_title sample_state_closed "U").should_close = true :=
  (adapter_never_resets_should_close sample_state_closed [] RawEvent.NoEvent
    "U" false sample_settings rfl).2.2.2.1

/-- C4: `wait_event` discards every leading no-event marker, then translates
the first real event, applies the Close Policy and returns it; on a queue of
three no-event markers followed by display-close it returns `Close` after
consuming all three, and on a queue of only no-event markers it never
returns. -/
theorem wait_event_skips_noevent_markers (s : WindowState) (n : Nat)
    (e : RawEvent) (rest : List RawEvent) (h : e ≠ RawEvent.NoEvent) :
    wait_event s (List.replicate n RawEvent.NoEvent ++ e :: rest) =
      (translate_event e).map (fun ev => (ev, handle_closings s ev, rest)) ∧
    wait_event s (List.replicate n RawEvent.NoEvent) = none ∧
    wait_event s [RawEvent.NoEvent, RawEvent.NoEvent, RawEvent.NoEvent,
        RawEvent.DisplayClose] =
      some (Input.Close, handle_closings s Input.Close, []) := by
  refine ⟨?_, ?_, ?_⟩
  · induction n with
    | zero => simpa using wait_event_cons s e rest h
    | succ m ih =>
        rw [List.replicate_succ, List.cons_append, wait_event_noevent_cons]
        exact ih
  · induction n with
    | zero => rfl
    | succ m ih =>
        rw [List.replicate_succ, wait_event_noevent_cons]
        exact ih
  · rfl

/-- Witness for C4 on the three-markers-then-display-close queue. -/
theorem wait_event_skips_noevent_markers_witness :
    wait_event sample_state
      (List.replicate 3 RawEvent.NoEvent ++ RawEvent.DisplayClose :: []) =
      (translate_event RawEvent.DisplayClose).map
        (fun ev => (ev, handle_closings sample_state ev, [])) :=
  (wait_event_skips_noevent_markers sample_state 3 RawEvent.DisplayClose []
    (by decide)).1

/-- C5: `translate_event` implements the mapping table exactly, and every
produced button event has no scancode. -/
theorem translate_event_mapping_table (w h x y dx dy : Int) (code : KeyCode)
    (k : Key) (c : Char) (m : Nat) (mb : MouseButton)
    (hw0 : 0 ≤ w) (hw1 : w < 2 ^ 32) (hh0 : 0 ≤ h) (hh1 : h < 2 ^ 32)
    (hk : translate_keycode code = some k)
    (hm : translate_mouse_button m = some mb) :
    translate_event RawEvent.DisplayClose = some Input.Close ∧
    translate_event (RawEvent.DisplayResize w h) =
      some (Input.Resize w.toNat h.toNat) ∧
    translate_event (RawEvent.KeyDown code) =
      some (Input.Button ⟨ButtonState.Press, Button.Keyboard k, none⟩) ∧
    translate_event (RawEvent.KeyUp code) =
      some (Input.Button ⟨ButtonState.Release, Button.Keyboard k, none⟩) ∧
    translate_event (RawEvent.KeyChar c) = some (Input.Text c.toString) ∧
    translate_event (RawEvent.MouseAxes dx dy) =
      some (Input.Move (Motion.MouseRelative dx dy)) ∧
    translate_event (RawEvent.MouseButtonDown m) =
      some (Input.Button ⟨ButtonState.Press, Button.Mouse mb, none⟩) ∧
    translate_event (RawEvent.MouseButtonUp m) =
      some (Input.Button ⟨ButtonState.Release, Button.Mouse mb, none⟩) ∧
    translate_event (RawEvent.MouseWarped x y) =
      some (Input.Move (Motion.MouseCursor x y)) ∧
    translate_event RawEvent.MouseEnterDisplay = some (Input.Cursor true) ∧
    translate_event RawEvent.MouseLeaveDisplay = some (Input.Cursor false) ∧
    (∀ (e : RawEvent) (args : ButtonArgs),
      translate_event e = some (Input.Button args) →
      args.scancode = none) := by
  refine ⟨rfl, ?_, ?_, ?_, rfl, rfl, ?_, ?_, rfl, rfl, rfl, ?_⟩
  · simp only [translate_event]
    rw [Int.emod_eq_of_lt hw0 hw1, Int.emod_eq_of_lt hh0 hh1]
  · simp [translate_event, hk]
  · simp [translate_event, hk]
  · simp [translate_event, hm]
  · simp [translate_event, hm]
  · intro e args he
    cases e
    all_goals
      first
        | exact Option.noConfusion he
        | (simp only [translate_event, Option.map_eq_some'] at he
           obtain ⟨a, ha, hfa⟩ := he
           injection hfa with h1
           rw [← h1])
        | (simp only [translate_event] at he; simp at he)

/-- Witness for C5 at concrete sizes, codes, characters and masks. -/
theorem translate_event_mapping_table_witness :
    translate_event RawEvent.DisplayClose = some Input.Close :=
  (translate_event_mapping_table 640 480 100 50 3 (-4) KeyCode.Escape
    Key.Escape 'a' 1 MouseButton.Left (by norm_num) (by norm_num)
    (by norm_num) (by norm_num) rfl (by decide)).1

/-- C7: `wait_event_timeout` does exactly one timed wait: a no-event result
yields `none` with the state untouched, and any other fetched raw event is
translated, run through the Close Policy and returned. -/
theorem wait_event_timeout_single_wait (s : WindowState) (r : RawEvent)
    (h : r ≠ RawEvent.NoEvent) :
    wait_event_timeout s RawEvent.NoEvent = some (none, s) ∧
    wait_event_timeout s r =
      (translate_event r).map (fun ev => (some ev, handle_closings s ev)) :=
  ⟨rfl, wait_event_timeout_eq s r h⟩

/-- Witness for C7 at a concrete display-close fetch. -/
theorem wait_event_timeout_single_wait_witness :
    wait_event_timeout sample_state RawEvent.DisplayClose =
      (translate_event RawEvent.DisplayClose).map
        (fun ev => (some ev, handle_closings sample_state ev)) :=
  (wait_event_timeout_single_wait sample_state RawEvent.DisplayClose
    (by decide)).2

/-- C9: `poll_event` returns `none` exactly when the single non-blocking
fetch yields the no-event marker (in particular on the empty queue), and
otherwise translates the one fetched event, applies the Close Policy and
returns it. -/
theorem poll_event_single_fetch (s : WindowState) (e : RawEvent)
    (rest : List RawEvent) (h : e ≠ RawEvent.NoEvent) :
    poll_event s [] = some (none, s, []) ∧
    poll_event s (RawEvent.NoEvent :: rest) = some (none, s, rest) ∧
    poll_event s (e :: rest) =
      (translate_event e).map
        (fun ev => (some ev, handle_closings s ev, rest)) :=
  ⟨rfl, rfl, poll_event_eq s e rest h⟩

/-- Witness for C9 at a concrete display-close head event. -/
theorem poll_event_single_fetch_witness :
    poll_event sample_state [RawEvent.DisplayClose] =
      (translate_event RawEvent.DisplayClose).map
        (fun ev => (some ev, handle_closings sample_state ev, [])) :=
  (poll_event_single_fetch sample_state RawEvent.DisplayClose []
    (by decide)).2.2

/-- C10: the three event-producing operations change nothing in the window
state except possibly flipping `should_close` from `false` to `true`. -/
theorem event_ops_frame (s : WindowState) (q : List RawEvent)
    (r : RawEvent) :
    (∀ ev s' q', wait_event s q = some (ev, s', q') →
      frame_preserved s s') ∧
    (∀ oev s', wait_event_timeout s r = some (oev, s') →
      frame_preserved s s') ∧
    (∀ oev s' q', poll_event s q = some (oev, s', q') →
      frame_preserved s s') := by
  refine ⟨?_, ?_, ?_⟩
  · intro ev s' q' hw
    rw [wait_event_state_eq s q ev s' q' hw]
    exact frame_preserved_handle s ev
  · intro oev s' hw
    rcases wait_event_timeout_state_eq s r oev s' hw with h' | ⟨ev, h'⟩ <;>
      rw [h']
    · exact frame_preserved_refl s
    · exact frame_preserved_handle s ev
  · intro oev s' q' hw
    rcases poll_event_state_eq s q oev s' q' hw with h' | ⟨ev, h'⟩ <;>
      rw [h']
    · exact frame_preserved_refl s
    · exact frame_preserved_handle s ev

/-- Witness for C10 on a concrete wait over a display-close queue. -/
theorem event_ops_frame_witness :
    frame_preserved sample_state (handle_closings sample_state Input.Close) :=
  (event_ops_frame sample_state [RawEvent.DisplayClose] RawEvent.NoEvent).1
    Input.Close (handle_closings sample_state Input.Close) [] rfl

end AllegroWindow
